import Mathlib

/-!
Shallow embedding of the tarot reading-synthesis engine
(`src/utils/readingAnalyzer.ts`, class `ReadingAnalyzer`, together with the
data contracts of `src/types/tarot.ts` and `src/types/reading.ts`).

JavaScript strings are modelled as Lean `String`s; `String.prototype.includes`
as a contiguous-subsequence test on the character list; `toLowerCase` as a
character-wise `Char.toLower`; interaction strengths as `ℚ` (the decimal
literals 0.3 / 0.5 / 0.6 / 0.7 / 0.9 are exactly representable as doubles and
only ever assigned, `max`-ed and compared, so `ℚ` models them exactly). The
three floating-point comparisons on integer counts (`> ·1.5`, `>= ·0.6`,
`>= 0.5` after a division) are exact in double precision at every reachable
operand and are embedded as the equivalent integer comparisons; the
equivalence with the rational reading is proved alongside the claims.
-/

namespace Tarot

/-- Character-wise lowercase, the model of JavaScript `toLowerCase()`. -/
def lowerChars (s : List Char) : List Char := s.map Char.toLower

/-- Predicate `matchHead pat s`: `pat` occurs at the very start of `s`. -/
def matchHead : List Char → List Char → Bool
  | [], _ => true
  | _ :: _, [] => false
  | p :: ps, c :: cs => p == c && matchHead ps cs

/-- Predicate `hasSeq s pat`: `pat` occurs contiguously somewhere in `s`
(model of JavaScript `s.includes(pat)`). -/
def hasSeq : List Char → List Char → Bool
  | [], pat => matchHead pat []
  | c :: cs, pat => matchHead pat (c :: cs) || hasSeq cs pat

/-- Model of JavaScript `a.includes(b)` on strings. -/
def strIncludes (s sub : String) : Bool := hasSeq s.data sub.data

/-- Model of JavaScript `s.split(' ')`: split on every single space character,
keeping empty fragments, `"".split(' ') = [""]`. -/
def splitSp : List Char → List (List Char)
  | [] => [[]]
  | c :: cs =>
    if c == ' ' then [] :: splitSp cs
    else
      match splitSp cs with
      | [] => [[c]]
      | w :: ws => (c :: w) :: ws

/-- Model of JavaScript `xs.join(' ')` on a list of strings. -/
def joinSp (xs : List String) : List Char :=
  List.intercalate [' '] (xs.map String.data)

/-! ### Data model (`src/types/tarot.ts`, `src/types/reading.ts`) -/

inductive Arcana where
  | major
  | minor
deriving DecidableEq, Repr

inductive Suit where
  | wands
  | cups
  | swords
  | pentacles
deriving DecidableEq, Repr

structure CardMeaning where
  short : String
  detailed : String
  general : String
  work : Option String
  love : Option String
  health : Option String
  spirituality : Option String
deriving DecidableEq, Repr

structure CardRelationships where
  supporting_cards : List String
  challenging_cards : List String
deriving DecidableEq, Repr

structure TarotCard where
  id : Nat
  name : String
  slug : String
  arcana : Arcana
  suit : Option Suit
  number : Option Nat
  keywords : List String
  upright : CardMeaning
  reversed : CardMeaning
  description : String
  image : String
  relationships : CardRelationships
deriving DecidableEq, Repr

structure DrawnCard where
  card : TarotCard
  position : Nat
  reversed : Bool
deriving DecidableEq, Repr

structure SpreadPosition where
  position : Nat
  name : String
  description : String
deriving DecidableEq, Repr

structure TarotSpread where
  id : String
  name : String
  description : String
  cardCount : Nat
  positions : List SpreadPosition
deriving DecidableEq, Repr

inductive RelationshipType where
  | supporting
  | challenging
  | neutral
  | complementary
  | contradicting
deriving DecidableEq, Repr

inductive OverallEnergy where
  | positive
  | negative
  | neutral
  | mixed
deriving DecidableEq, Repr

structure CardInteraction where
  card1 : TarotCard
  card2 : TarotCard
  relationshipType : RelationshipType
  strength : ℚ
  interpretation : String
deriving DecidableEq, Repr

structure ReadingTheme where
  primaryTheme : String
  secondaryThemes : List String
  overallEnergy : OverallEnergy
  dominantSuit : Option Suit
  majorArcanaCount : Nat
  courtCardCount : Nat
deriving DecidableEq, Repr

structure ReadingSynthesis where
  opening : String
  body : List String
  conclusion : String
  advice : String
deriving DecidableEq, Repr

structure FullReadingAnalysis where
  theme : ReadingTheme
  interactions : List CardInteraction
  supportingCards : List DrawnCard
  challengingCards : List DrawnCard
  outcomeInfluencers : List DrawnCard
  synthesis : ReadingSynthesis
deriving DecidableEq, Repr

/-- The two languages the engine's inline template tables cover. -/
inductive Language where
  | en
  | vi
deriving DecidableEq, Repr

/-! ### Fuzzy card-name matching (`matchesCardName`, `isInRelationshipList`) -/

/-- Scanning left to right, the segment after the first `(`; `none` when there
is no `(` or the segment is empty. -/
def firstParenRest : List Char → Option (List Char)
  | [] => none
  | c :: cs => if c == '(' then (if cs.isEmpty then none else some cs) else firstParenRest cs

/-- The capture group of the JavaScript regex match `name.match(/\(([^)]+)\)$/)`:
the name must end in `)`, and the capture is everything after the leftmost `(`
that is followed by no further `)` before the final one (at least one
character). -/
def parenExtract (s : List Char) : Option (List Char) :=
  match s.reverse with
  | ')' :: rest => firstParenRest (rest.takeWhile (fun c => c != ')')).reverse
  | _ => none

/-- Source `ReadingAnalyzer.matchesCardName`: direct equality, then the trailing
parenthetical capture, then substring containment. -/
def matchesCardName (cardToMatch : TarotCard) (nameToFind : String) : Bool :=
  if cardToMatch.name == nameToFind then true
  else
    match parenExtract cardToMatch.name.data with
    | some mid => if mid == nameToFind.data then true else strIncludes cardToMatch.name nameToFind
    | none => strIncludes cardToMatch.name nameToFind

/-- Source `ReadingAnalyzer.isInRelationshipList`. -/
def isInRelationshipList (card : TarotCard) (relationshipList : List String) : Bool :=
  relationshipList.any fun name => matchesCardName card name

/-! ### Interaction scorer

The decimal strength literals of the source (0.3, 0.5, 0.6, 0.7, 0.9) are
embedded as rationals given in lowest terms, so that evaluating the engine
inside `decide` never has to normalize a fraction. -/

/-- Literal 0.3, the significance threshold of `analyzeInteractions`. -/
def q03 : ℚ := ⟨3, 10, by norm_num, by norm_num⟩

/-- Literal 0.5, the shared-suit strength floor. -/
def q05 : ℚ := ⟨1, 2, by norm_num, by norm_num⟩

/-- Literal 0.6, the double-major-arcana strength floor. -/
def q06 : ℚ := ⟨3, 5, by norm_num, by norm_num⟩

/-- Literal 0.7, the contradicting strength. -/
def q07 : ℚ := ⟨7, 10, by norm_num, by norm_num⟩

/-- Literal 0.9, the supporting/challenging strength. -/
def q09 : ℚ := ⟨9, 10, by norm_num, by norm_num⟩

/-- The whitespace-tokenized lowercase keyword tokens of a card:
`card.keywords.join(' ').toLowerCase().split(' ')`. -/
def keywordTokens (card : TarotCard) : List (List Char) :=
  splitSp (lowerChars (joinSp card.keywords))

/-- Source `ReadingAnalyzer.haveSimilarEnergy`: the number of tokens of `card1`
(counted with multiplicity) that occur among `card2`'s tokens is at least 2. -/
def haveSimilarEnergy (card1 card2 : TarotCard) : Bool :=
  let words1 := keywordTokens card1
  let words2 := keywordTokens card2
  let overlap := (words1.filter fun w => words2.contains w).length
  decide (2 ≤ overlap)

/-- Source `ReadingAnalyzer.getInteractionInterpretation`. -/
def getInteractionInterpretation (lang : Language) (card1 card2 : TarotCard)
    (type : RelationshipType) : String :=
  match lang, type with
  | .en, .supporting =>
      card1.name ++ " enhances the energy of " ++ card2.name ++ ", creating a harmonious flow."
  | .en, .challenging =>
      card1.name ++ " creates tension with " ++ card2.name ++ ", highlighting an area requiring attention."
  | .en, .complementary =>
      card1.name ++ " and " ++ card2.name ++ " work together, reinforcing similar themes."
  | .en, .contradicting =>
      card1.name ++ " contradicts " ++ card2.name ++ ", suggesting internal conflict or choices."
  | .en, .neutral =>
      card1.name ++ " and " ++ card2.name ++ " coexist, each contributing their unique perspective."
  | .vi, .supporting =>
      card1.name ++ " tăng cường năng lượng của " ++ card2.name ++ ", tạo ra một luồng hài hòa."
  | .vi, .challenging =>
      card1.name ++ " tạo ra căng thẳng với " ++ card2.name ++ ", làm nổi bật một khu vực cần chú ý."
  | .vi, .complementary =>
      card1.name ++ " và " ++ card2.name ++ " làm việc cùng nhau, củng cố các chủ đề tương tự."
  | .vi, .contradicting =>
      card1.name ++ " mâu thuẫn với " ++ card2.name ++ ", gợi ý xung đột nội tâm hoặc sự lựa chọn."
  | .vi, .neutral =>
      card1.name ++ " và " ++ card2.name ++ " cùng tồn tại, mỗi cái đóng góp quan điểm độc đáo của riêng mình."

/-- Steps 2–3 of `calculateInteraction`: the four-way relationship-list
if/else-if chain, in source order. -/
def relationshipStep (card1 card2 : TarotCard) : RelationshipType × ℚ :=
  if isInRelationshipList card2 card1.relationships.supporting_cards then
    (RelationshipType.supporting, q09)
  else if isInRelationshipList card2 card1.relationships.challenging_cards then
    (RelationshipType.challenging, q09)
  else if isInRelationshipList card1 card2.relationships.supporting_cards then
    (RelationshipType.supporting, q09)
  else if isInRelationshipList card1 card2.relationships.challenging_cards then
    (RelationshipType.challenging, q09)
  else (RelationshipType.neutral, 0)

/-- Step 4 of `calculateInteraction`: shared non-null suit. -/
def suitStep (card1 card2 : TarotCard) (rs : RelationshipType × ℚ) : RelationshipType × ℚ :=
  if card1.suit = card2.suit ∧ card1.suit ≠ none then
    ((if rs.1 = RelationshipType.neutral then RelationshipType.complementary else rs.1),
      max rs.2 q05)
  else rs

/-- Step 5 of `calculateInteraction`: both major arcana. -/
def majorStep (card1 card2 : TarotCard) (rs : RelationshipType × ℚ) : RelationshipType × ℚ :=
  if card1.arcana = Arcana.major ∧ card2.arcana = Arcana.major then
    (rs.1, max rs.2 q06)
  else rs

/-- Step 6 of `calculateInteraction`: differing orientation with similar
energy overrides everything with `contradicting` / 0.7. -/
def contradictStep (dc1 dc2 : DrawnCard) (rs : RelationshipType × ℚ) : RelationshipType × ℚ :=
  if dc1.reversed ≠ dc2.reversed ∧ haveSimilarEnergy dc1.card dc2.card = true then
    (RelationshipType.contradicting, q07)
  else rs

/-- Source `ReadingAnalyzer.calculateInteraction`, the sequential reassignments of
`(relationshipType, strength)` written as one step per source block. -/
def calculateInteraction (lang : Language) (dc1 dc2 : DrawnCard) : CardInteraction :=
  let rs := contradictStep dc1 dc2
    (majorStep dc1.card dc2.card (suitStep dc1.card dc2.card (relationshipStep dc1.card dc2.card)))
  { card1 := dc1.card
    card2 := dc2.card
    relationshipType := rs.1
    strength := rs.2
    interpretation := getInteractionInterpretation lang dc1.card dc2.card rs.1 }

/-- The ordered pairs `(cards[i], cards[j])` with `i < j`, in the order of the
double loop of `analyzeInteractions`. -/
def pairsOf : List DrawnCard → List (DrawnCard × DrawnCard)
  | [] => []
  | x :: xs => (xs.map fun y => (x, y)) ++ pairsOf xs

/-- The descending-by-strength comparison used by the sort in
`analyzeInteractions`. -/
def strengthGe (a b : CardInteraction) : Prop := b.strength ≤ a.strength

instance : DecidableRel strengthGe := fun a b => inferInstanceAs (Decidable (_ ≤ _))

instance : IsTotal CardInteraction strengthGe :=
  ⟨fun a b => le_total b.strength a.strength⟩

instance : IsTrans CardInteraction strengthGe :=
  ⟨fun _ _ _ h1 h2 => le_trans h2 h1⟩

/-- Source `ReadingAnalyzer.analyzeInteractions`: all pairs with strength above 0.3,
sorted descending by strength. -/
def analyzeInteractions (lang : Language) (cards : List DrawnCard) : List CardInteraction :=
  let interactions :=
    ((pairsOf cards).map fun p => calculateInteraction lang p.1 p.2).filter
      fun i => decide (q03 < i.strength)
  List.insertionSort strengthGe interactions

/-! ### Theme analyzer -/

/-- One reduction step of the `suits.reduce` tally: bump the count of `s`,
keeping first-occurrence key order (JavaScript object key insertion order). -/
def bumpSuit : List (Suit × Nat) → Suit → List (Suit × Nat)
  | [], s => [(s, 1)]
  | (t, n) :: rest, s =>
    if t = s then (t, n + 1) :: rest else (t, n) :: bumpSuit rest s

/-- The `suitCounts` tally of `analyzeTheme`, in key insertion order. -/
def suitCounts (suits : List Suit) : List (Suit × Nat) :=
  suits.foldl bumpSuit []

/-- Source expression `Object.entries(suitCounts).sort(descending by count)` head: with the
stable sort of the source this is the first-encountered suit of maximal
count, `none` when no drawn card has a suit. -/
def dominantSuit (cards : List DrawnCard) : Option Suit :=
  let suits := cards.filterMap fun dc => dc.card.suit
  match suitCounts suits with
  | [] => none
  | e :: es => some (es.foldl (fun best y => if best.2 < y.2 then y else best) e).1

/-- Count of drawn major-arcana cards. -/
def majorArcanaCount (cards : List DrawnCard) : Nat :=
  (cards.filter fun dc => dc.card.arcana = Arcana.major).length

/-- Count of drawn court cards (name contains King/Queen/Knight/Page). -/
def courtCardCount (cards : List DrawnCard) : Nat :=
  (cards.filter fun dc =>
    strIncludes dc.card.name "King" || strIncludes dc.card.name "Queen" ||
    strIncludes dc.card.name "Knight" || strIncludes dc.card.name "Page").length

def positiveKeywords : List String :=
  ["success", "love", "growth", "abundance", "joy", "happiness", "hope", "harmony", "peace"]

def negativeKeywords : List String :=
  ["conflict", "loss", "fear", "sorrow", "struggle", "pain", "difficulty", "challenge"]

/-- The lowercased orientation-appropriate short meaning text scanned by
`calculateOverallEnergy`. -/
def meaningText (dc : DrawnCard) : List Char :=
  lowerChars (if dc.reversed then dc.card.reversed.short.data else dc.card.upright.short.data)

/-- Total `positiveScore` of `calculateOverallEnergy`. -/
def positiveScore (cards : List DrawnCard) : Nat :=
  cards.foldl
    (fun acc dc => acc + (positiveKeywords.filter fun kw => hasSeq (meaningText dc) kw.data).length)
    0

/-- Total `negativeScore` of `calculateOverallEnergy`. -/
def negativeScore (cards : List DrawnCard) : Nat :=
  cards.foldl
    (fun acc dc => acc + (negativeKeywords.filter fun kw => hasSeq (meaningText dc) kw.data).length)
    0

/-- Source `ReadingAnalyzer.calculateOverallEnergy`. The source compares
`positiveScore > negativeScore * 1.5` on exact integer scores, which is
`2·positive > 3·negative`; likewise `Math.abs(positive - negative) < 2` is the
natural absolute value of the integer difference. The equivalence with the
rational-arithmetic reading is proved in `calculateOverallEnergy_eq_spec`. -/
def calculateOverallEnergy (cards : List DrawnCard) : OverallEnergy :=
  let positive := positiveScore cards
  let negative := negativeScore cards
  if 3 * negative < 2 * positive then OverallEnergy.positive
  else if 3 * positive < 2 * negative then OverallEnergy.negative
  else if ((positive : ℤ) - (negative : ℤ)).natAbs < 2 then OverallEnergy.mixed
  else OverallEnergy.neutral

/-- The per-language template table of `determinePrimaryTheme`. -/
structure ThemeTemplates where
  wands : String
  cups : String
  swords : String
  pentacles : String
  majorHeavy : String
deriving DecidableEq, Repr

def themeTemplates : Language → ThemeTemplates
  | .en =>
    { wands := "Action, passion, and creative energy"
      cups := "Emotions, relationships, and intuition"
      swords := "Thoughts, challenges, and mental clarity"
      pentacles := "Material world, finances, and practical matters"
      majorHeavy := "Significant life changes and spiritual lessons" }
  | .vi =>
    { wands := "Hành động, đam mê và năng lượng sáng tạo"
      cups := "Cảm xúc, các mối quan hệ và trực giác"
      swords := "Suy nghĩ, thách thức và sự rõ ràng tinh thần"
      pentacles := "Thế giới vật chất, tài chính và các vấn đề thực tế"
      majorHeavy := "Những thay đổi lớn trong cuộc sống và bài học tâm linh" }

/-- The `templates[dominantSuit]` lookup. -/
def suitTemplate (t : ThemeTemplates) : Suit → String
  | .wands => t.wands
  | .cups => t.cups
  | .swords => t.swords
  | .pentacles => t.pentacles

/-- The generic balanced-reading fallback text of `determinePrimaryTheme`. -/
def balancedText : Language → String
  | .en => "A balanced reading across all areas"
  | .vi => "Một bài xem cân bằng trên tất cả các khía cạnh"

/-- Source `ReadingAnalyzer.determinePrimaryTheme` (`totalCards` stands for the
`this.cards.length` the method reads from the instance). -/
def determinePrimaryTheme (lang : Language) (totalCards : Nat) (dominantSuit : Option Suit)
    (majorCount : Nat) : String :=
  let templates := themeTemplates lang
  -- `majorCount >= this.cards.length * 0.6` on exact counts, i.e. 3·total ≤ 5·major
  -- (the rational form of the condition is recovered in `primaryTheme_spec`)
  if 3 * totalCards ≤ 5 * majorCount then templates.majorHeavy
  else
    match dominantSuit with
    | some s => suitTemplate templates s
    | none => balancedText lang

/-- Source `ReadingAnalyzer.determineSecondaryThemes`. -/
def determineSecondaryThemes (lang : Language) (cards : List DrawnCard) : List String :=
  let hasLoveCards := cards.any fun dc =>
    strIncludes dc.card.name "Lovers" || dc.card.suit == some Suit.cups
  let hasWorkCards := cards.any fun dc =>
    dc.card.suit == some Suit.pentacles || strIncludes dc.card.name "Chariot" ||
    strIncludes dc.card.name "Emperor"
  (if hasLoveCards then [(match lang with | .en => "Relationships" | .vi => "Các mối quan hệ")] else [])
    ++ (if hasWorkCards then
          [(match lang with | .en => "Career & Success" | .vi => "Sự nghiệp & Thành công")]
        else [])

/-- Source `ReadingAnalyzer.analyzeTheme`. -/
def analyzeTheme (lang : Language) (cards : List DrawnCard) : ReadingTheme :=
  let ds := dominantSuit cards
  let majorCount := majorArcanaCount cards
  { primaryTheme := determinePrimaryTheme lang cards.length ds majorCount
    secondaryThemes := determineSecondaryThemes lang cards
    overallEnergy := calculateOverallEnergy cards
    dominantSuit := ds
    majorArcanaCount := majorCount
    courtCardCount := courtCardCount cards }

/-! ### Outcome selector and card categorization -/

/-- The outcome-keyword test on a position name
(`p.name.toLowerCase().includes(...)`). -/
def isOutcomeName (name : String) : Bool :=
  hasSeq (lowerChars name.data) "future".data ||
  hasSeq (lowerChars name.data) "outcome".data ||
  hasSeq (lowerChars name.data) "result".data

/-- Source `ReadingAnalyzer.identifyOutcomeInfluencers`. -/
def identifyOutcomeInfluencers (cards : List DrawnCard) (spread : TarotSpread) :
    List DrawnCard :=
  let outcomePositions := (spread.positions.filter fun p => isOutcomeName p.name).map
    fun p => p.position
  let outcomeCards := cards.filter fun dc => outcomePositions.contains dc.position
  if 0 < outcomeCards.length then outcomeCards
  else
    match cards.getLast? with
    | some dc => [dc]
    | none => []

/-- The `supportingSet` of card ids built by the `forEach` of
`categorizeCards` (membership-equivalent list model of the JavaScript `Set`). -/
def supportingIds (interactions : List CardInteraction) : List Nat :=
  interactions.foldr
    (fun i acc =>
      if i.relationshipType = RelationshipType.supporting then
        i.card1.id :: i.card2.id :: acc
      else acc)
    []

/-- The `challengingSet` of card ids built by `categorizeCards`. -/
def challengingIds (interactions : List CardInteraction) : List Nat :=
  interactions.foldr
    (fun i acc =>
      if i.relationshipType = RelationshipType.challenging then
        i.card1.id :: i.card2.id :: acc
      else acc)
    []

/-- Source `ReadingAnalyzer.categorizeCards`. -/
def categorizeCards (cards : List DrawnCard) (interactions : List CardInteraction) :
    List DrawnCard × List DrawnCard :=
  (cards.filter fun dc => (supportingIds interactions).contains dc.card.id,
   cards.filter fun dc => (challengingIds interactions).contains dc.card.id)

/-! ### Narrative synthesizer -/

/-- Character-wise lowercase on `String`, model of `toLowerCase()`. -/
def lowerString (s : String) : String := ⟨lowerChars s.data⟩

/-- Source `ReadingAnalyzer.generateOpening`. -/
def generateOpening (lang : Language) (question : String) (theme : ReadingTheme) : String :=
  let base :=
    match lang, theme.overallEnergy with
    | .en, .positive =>
        "The cards reveal a promising path ahead. Your reading is illuminated by " ++
        lowerString theme.primaryTheme ++
        ", suggesting opportunities for growth and positive transformation."
    | .en, .negative =>
        "The cards bring a message of caution and awareness. With " ++
        lowerString theme.primaryTheme ++
        " at the forefront, this is a time to navigate challenges with wisdom."
    | .en, .mixed =>
        "The cards present a nuanced picture, blending both opportunities and challenges. " ++
        theme.primaryTheme ++ " sets the stage for a journey of balance."
    | .en, .neutral =>
        "The cards offer guidance on your path forward. " ++ theme.primaryTheme ++
        " provides the foundation for understanding your current situation."
    | .vi, .positive =>
        "Các lá bài tiết lộ một con đường đầy hứa hẹn phía trước. Bài xem của bạn được chiếu sáng bởi " ++
        lowerString theme.primaryTheme ++
        ", gợi ý những cơ hội cho sự phát triển và chuyển đổi tích cực."
    | .vi, .negative =>
        "Các lá bài mang đến thông điệp thận trọng và nhận thức. Với " ++
        lowerString theme.primaryTheme ++
        " ở tiền tuyến, đây là lúc để vượt qua thử thách bằng trí tuệ."
    | .vi, .mixed =>
        "Các lá bài trình bày một bức tranh tinh tế, pha trộn cả cơ hội và thử thách. " ++
        theme.primaryTheme ++ " đặt nền tảng cho một hành trình cân bằng."
    | .vi, .neutral =>
        "Các lá bài mang lại hướng dẫn trên con đường phía trước của bạn. " ++
        theme.primaryTheme ++ " cung cấp nền tảng để hiểu tình huống hiện tại của bạn."
  if question ≠ "" ∧ question.trim ≠ "" then
    base ++
      (match lang with
       | .en => " In response to your question: \"" ++ question ++ "\""
       | .vi => " Để trả lời câu hỏi của bạn: \"" ++ question ++ "\"")
  else base

/-- The per-suit dominance paragraph of `generateBody`. -/
def suitMeaningText (lang : Language) : Suit → String
  | .wands =>
    match lang with
    | .en => "The presence of Wands cards indicates that passion, creativity, and action are key themes. This is a time to pursue your ambitions with confidence."
    | .vi => "Sự hiện diện của các lá Gậy cho thấy đam mê, sáng tạo và hành động là chủ đề chính. Đây là lúc để theo đuổi tham vọng với sự tự tin."
  | .cups =>
    match lang with
    | .en => "The dominance of Cups suggests that emotional matters, relationships, and intuition play a central role. Listen to your heart."
    | .vi => "Sự thống trị của Cốc cho thấy các vấn đề cảm xúc, các mối quan hệ và trực giác đóng vai trò trung tâm. Hãy lắng nghe trái tim bạn."
  | .swords =>
    match lang with
    | .en => "The prevalence of Swords points to mental activity, communication, and decision-making. Clarity of thought will be your ally."
    | .vi => "Sự phổ biến của Kiếm chỉ ra hoạt động tinh thần, giao tiếp và ra quyết định. Sự rõ ràng trong suy nghĩ sẽ là đồng minh của bạn."
  | .pentacles =>
    match lang with
    | .en => "The abundance of Pentacles highlights material concerns, career, and practical matters. Focus on building solid foundations."
    | .vi => "Sự dồi dào của Tiền xu làm nổi bật các mối quan tâm vật chất, sự nghiệp và các vấn đề thực tế. Tập trung vào việc xây dựng nền tảng vững chắc."

/-- Source `ReadingAnalyzer.generateBody` (`totalCards` is `this.cards.length`). -/
def generateBody (lang : Language) (totalCards : Nat) (theme : ReadingTheme)
    (interactions : List CardInteraction) (supporting challenging : List DrawnCard) :
    List String :=
  let p1 : List String :=
    match theme.dominantSuit with
    | some s => [suitMeaningText lang s]
    | none => []
  let p2 : List String :=
    -- `majorArcanaCount / totalCards >= 0.5` on exact counts, i.e. total ≤ 2·major
    if 0 < theme.majorArcanaCount ∧ totalCards ≤ 2 * theme.majorArcanaCount then
      [match lang with
       | .en =>
          "With " ++ toString theme.majorArcanaCount ++
          " Major Arcana card(s), this reading carries significant weight. The universe is speaking through powerful archetypal energies, indicating that these are pivotal moments in your journey. Pay close attention to the lessons being offered."
       | .vi =>
          "Với " ++ toString theme.majorArcanaCount ++
          " lá Bài Lớn, bài xem này mang ý nghĩa đáng kể. Vũ trụ đang nói thông qua các năng lượng nguyên mẫu mạnh mẽ, cho thấy đây là những thời điểm quan trọng trong hành trình của bạn. Hãy chú ý kỹ đến những bài học được cung cấp."]
    else []
  let p3 : List String :=
    if 0 < supporting.length ∨ 0 < challenging.length then
      [if challenging.length < supporting.length then
        let supportingNames := String.intercalate ", " ((supporting.map fun dc => dc.card.name).take 2)
        match lang with
        | .en =>
            "The cards show strong supportive energies working in your favor. " ++
            supportingNames ++ (if 2 < supporting.length then " and others" else "") ++
            " create a positive foundation, helping you move forward with confidence."
        | .vi =>
            "Các lá bài cho thấy năng lượng hỗ trợ mạnh mẽ đang hoạt động có lợi cho bạn. " ++
            supportingNames ++ (if 2 < supporting.length then " và những lá khác" else "") ++
            " tạo ra một nền tảng tích cực, giúp bạn tiến lên với sự tự tin."
      else if supporting.length < challenging.length then
        let challengingNames := String.intercalate ", " ((challenging.map fun dc => dc.card.name).take 2)
        match lang with
        | .en =>
            "The reading reveals some challenging dynamics. " ++ challengingNames ++
            (if 2 < challenging.length then " and others" else "") ++
            " highlight areas of resistance or lessons to be learned. These are not obstacles but teachers."
        | .vi =>
            "Bài xem tiết lộ một số động lực thách thức. " ++ challengingNames ++
            (if 2 < challenging.length then " và những lá khác" else "") ++
            " làm nổi bật các khu vực kháng cự hoặc bài học cần được học. Đây không phải là chướng ngại vật mà là giáo viên."
      else
        match lang with
        | .en => "The reading shows a balance between supportive and challenging energies, creating a dynamic tension that invites growth through both ease and effort."
        | .vi => "Bài xem cho thấy sự cân bằng giữa năng lượng hỗ trợ và thách thức, tạo ra một căng thẳng năng động mời gọi sự phát triển thông qua cả sự dễ dàng và nỗ lực."]
    else []
  let p4 : List String :=
    match interactions with
    | [] => []
    | top :: _ =>
      [match lang with
       | .en =>
          "A particularly notable connection appears between " ++ top.card1.name ++ " and " ++
          top.card2.name ++ ". " ++ top.interpretation
       | .vi =>
          "Một kết nối đặc biệt đáng chú ý xuất hiện giữa " ++ top.card1.name ++ " và " ++
          top.card2.name ++ ". " ++ top.interpretation]
  p1 ++ p2 ++ p3 ++ p4

/-- Source `ReadingAnalyzer.generateConclusion`. -/
def generateConclusion (lang : Language) (theme : ReadingTheme) : String :=
  match lang, theme.overallEnergy with
  | .en, .positive => "This reading brings a message of hope and potential. Trust in the journey ahead and embrace the opportunities that come your way."
  | .en, .negative => "While challenges are present, they bring important lessons. Face them with courage and wisdom, knowing that growth often comes through difficulty."
  | .en, .mixed => "Your path holds both light and shadow. Navigate with awareness, accepting both the gifts and the challenges as part of your journey."
  | .en, .neutral => "The cards have spoken, offering their wisdom. Reflect on these messages and trust your intuition to guide you forward."
  | .vi, .positive => "Bài xem này mang thông điệp hy vọng và tiềm năng. Hãy tin tưởng vào hành trình phía trước và đón nhận những cơ hội đến với bạn."
  | .vi, .negative => "Mặc dù có những thử thách, chúng mang lại những bài học quan trọng. Hãy đối mặt với chúng bằng lòng can đảm và trí tuệ, biết rằng sự phát triển thường đến qua khó khăn."
  | .vi, .mixed => "Con đường của bạn chứa cả ánh sáng và bóng tối. Hãy điều hướng với nhận thức, chấp nhận cả những món quà và thử thách như một phần của hành trình."
  | .vi, .neutral => "Các lá bài đã nói, cung cấp trí tuệ của họ. Hãy suy ngẫm về những thông điệp này và tin tưởng trực giác của bạn để dẫn dắt bạn tiến lên."

/-- Source `ReadingAnalyzer.generateAdvice`. -/
def generateAdvice (lang : Language) (supporting challenging : List DrawnCard) : String :=
  (match supporting with
   | [] => ""
   | dc :: _ =>
     match lang with
     | .en => "Draw strength from the supportive energies of " ++ dc.card.name ++ ". "
     | .vi => "Hãy rút sức mạnh từ năng lượng hỗ trợ của " ++ dc.card.name ++ ". ")
  ++ (match challenging with
      | [] => ""
      | dc :: _ =>
        match lang with
        | .en => "Be mindful of the lessons " ++ dc.card.name ++ " brings, and approach them with patience. "
        | .vi => "Hãy chú ý đến những bài học mà " ++ dc.card.name ++ " mang lại, và tiếp cận chúng với sự kiên nhẫn. ")
  ++ (match lang with
      | .en => "Remember, the cards are a mirror—they reflect possibilities, not certainties. You hold the power to shape your path."
      | .vi => "Hãy nhớ, các lá bài là một tấm gương—chúng phản ánh khả năng, không phải sự chắc chắn. Bạn nắm giữ quyền lực để định hình con đường của mình.")

/-- Source `ReadingAnalyzer.generateSynthesis`. -/
def generateSynthesis (lang : Language) (totalCards : Nat) (question : String)
    (theme : ReadingTheme) (interactions : List CardInteraction)
    (supporting challenging : List DrawnCard) : ReadingSynthesis :=
  { opening := generateOpening lang question theme
    body := generateBody lang totalCards theme interactions supporting challenging
    conclusion := generateConclusion lang theme
    advice := generateAdvice lang supporting challenging }

/-- Source `ReadingAnalyzer.analyze`, the public entry point
(`analyzeReading(cards, spread, question)` with the active language made an
explicit argument). -/
def analyze (lang : Language) (cards : List DrawnCard) (spread : TarotSpread)
    (question : String) : FullReadingAnalysis :=
  let theme := analyzeTheme lang cards
  let interactions := analyzeInteractions lang cards
  let sc := categorizeCards cards interactions
  let outcomeInfluencers := identifyOutcomeInfluencers cards spread
  let synthesis := generateSynthesis lang cards.length question theme interactions sc.1 sc.2
  { theme := theme
    interactions := interactions
    supportingCards := sc.1
    challengingCards := sc.2
    outcomeInfluencers := outcomeInfluencers
    synthesis := synthesis }


/-! ### Concrete reference inputs used by the verification theorems -/

/-- A meaning record carrying only a short text (the sole field the engine
ever reads). -/
def mkMeaning (s : String) : CardMeaning :=
  { short := s, detailed := "", general := "", work := none, love := none,
    health := none, spirituality := none }

/-- A card literal: identity, taxonomy, keywords and relationship lists. -/
def mkCard (id : Nat) (name : String) (arcana : Arcana) (suit : Option Suit)
    (keywords : List String) (sup chall : List String) : TarotCard :=
  { id := id, name := name, slug := name, arcana := arcana, suit := suit,
    number := none, keywords := keywords,
    upright := mkMeaning "calm", reversed := mkMeaning "calm",
    description := "", image := "",
    relationships := { supporting_cards := sup, challenging_cards := chall } }

/-- Major-arcana cups card that lists `The Moon` as supporting. -/
def cardA : TarotCard := mkCard 1 "The Sun" .major (some .cups) ["joy", "peace"] ["The Moon"] []

/-- Major-arcana cups card sharing two keywords with `cardA`. -/
def cardB : TarotCard := mkCard 2 "The Moon" .major (some .cups) ["joy", "peace"] [] []

def dcA : DrawnCard := { card := cardA, position := 1, reversed := false }

def dcB : DrawnCard := { card := cardB, position := 2, reversed := true }

/-- Card whose challenging-list holds `Beta`. -/
def cardP : TarotCard := mkCard 11 "Alpha" .minor none ["one"] [] ["Beta"]

/-- Card whose supporting-list holds `Alpha`. -/
def cardQ : TarotCard := mkCard 12 "Beta" .minor none ["two"] ["Alpha"] []

def dcP : DrawnCard := { card := cardP, position := 1, reversed := false }

def dcQ : DrawnCard := { card := cardQ, position := 2, reversed := false }

/-- A card with a repeated keyword, for the keyword-overlap analysis. -/
def cardK1 : TarotCard := mkCard 21 "Kay One" .minor none ["love", "love"] [] []

def cardK2 : TarotCard := mkCard 22 "Kay Two" .minor none ["love"] [] []

/-- Three major-arcana cards and two cups cards: a 60% major reading with a
clear cups majority among the minors. -/
def cardM1 : TarotCard := mkCard 31 "Major One" .major none [] [] []

def cardM2 : TarotCard := mkCard 32 "Major Two" .major none [] [] []

def cardM3 : TarotCard := mkCard 33 "Major Three" .major none [] [] []

def cardC1 : TarotCard := mkCard 34 "Cups One" .minor (some .cups) [] [] []

def cardC2 : TarotCard := mkCard 35 "Cups Two" .minor (some .cups) [] [] []

def fiveCards : List DrawnCard :=
  [{ card := cardM1, position := 1, reversed := false },
   { card := cardM2, position := 2, reversed := false },
   { card := cardM3, position := 3, reversed := false },
   { card := cardC1, position := 4, reversed := false },
   { card := cardC2, position := 5, reversed := false }]

/-- A three-position spread whose third position is outcome-named. -/
def outcomeSpread : TarotSpread :=
  { id := "ppf", name := "Past Present Future", description := "", cardCount := 3,
    positions :=
      [{ position := 1, name := "Past", description := "" },
       { position := 2, name := "Present", description := "" },
       { position := 3, name := "The Outcome", description := "" }] }

/-- A three-position spread with no outcome-keyword position name. -/
def plainSpread : TarotSpread :=
  { id := "ppl", name := "Past Present Lesson", description := "", cardCount := 3,
    positions :=
      [{ position := 1, name := "Past", description := "" },
       { position := 2, name := "Present", description := "" },
       { position := 3, name := "Lesson", description := "" }] }

/-- Card that supports `Yara` and challenges `Zephyr`. -/
def cardX : TarotCard := mkCard 41 "Xanth" .minor none [] ["Yara"] ["Zephyr"]

def cardY : TarotCard := mkCard 42 "Yara" .minor none [] [] []

def cardZ : TarotCard := mkCard 43 "Zephyr" .minor none [] [] []

def dcX : DrawnCard := { card := cardX, position := 1, reversed := false }

def dcY : DrawnCard := { card := cardY, position := 2, reversed := false }

def dcZ : DrawnCard := { card := cardZ, position := 3, reversed := false }

/-- The three-card reading in which `dcX` both supports and challenges. -/
def xyzCards : List DrawnCard := [dcX, dcY, dcZ]

/-- The supporting interaction between `dcX` and `dcY`. -/
def iXY : CardInteraction := calculateInteraction .en dcX dcY

/-! ### Specification-side definitions (stated from the spec's words, to be
compared with the source-derived definitions above) -/

/-- The overall-energy classification exactly as the specification words it,
as a function of the two keyword scores: positive if the positive score
exceeds 1.5× the negative score; else negative if the negative score exceeds
1.5× the positive score; else mixed if the scores differ by less than 2;
else neutral. -/
def specClassifyEnergy (p n : Nat) : OverallEnergy :=
  if (p : ℚ) > (n : ℚ) * (3/2) then OverallEnergy.positive
  else if (n : ℚ) > (p : ℚ) * (3/2) then OverallEnergy.negative
  else if |(p : ℤ) - (n : ℤ)| < 2 then OverallEnergy.mixed
  else OverallEnergy.neutral

/-- The keyword-overlap condition as the claim words it: the two cards'
case-insensitive, whitespace-tokenized keyword token sets share at least two
distinct words. -/
def specDistinctOverlap (c1 c2 : TarotCard) : Bool :=
  decide (2 ≤ ((keywordTokens c1).dedup.filter fun w => (keywordTokens c2).contains w).length)

/-! ### Sanity checks of the string model -/

example : parenExtract "Chàng Khờ (The Fool)".data = some "The Fool".data := by decide

example : parenExtract "(a)(b)".data = some "b".data := by decide

example : parenExtract "No paren".data = none := by decide

example : splitSp "a  b".data = ["a".data, "".data, "b".data] := by decide

example : hasSeq "the outcome".data "outcome".data = true := by decide

example : haveSimilarEnergy cardA cardB = true := by decide

/-! ### Strength literals in plain fraction form -/

theorem q03_eq : q03 = 3/10 := by
  rw [q03, Rat.mk'_eq_divInt, Rat.divInt_eq_div]; norm_num

theorem q05_eq : q05 = 1/2 := by
  rw [q05, Rat.mk'_eq_divInt, Rat.divInt_eq_div]; norm_num

theorem q06_eq : q06 = 3/5 := by
  rw [q06, Rat.mk'_eq_divInt, Rat.divInt_eq_div]; norm_num

theorem q07_eq : q07 = 7/10 := by
  rw [q07, Rat.mk'_eq_divInt, Rat.divInt_eq_div]; norm_num

theorem q09_eq : q09 = 9/10 := by
  rw [q09, Rat.mk'_eq_divInt, Rat.divInt_eq_div]; norm_num

theorem max_q09_q05 : max q09 q05 = q09 := by decide

theorem max_q09_q06 : max q09 q06 = q09 := by decide

/-! ### C1 -/

/-- C1: whenever the two drawn cards have differing orientations and the
similar-energy keyword-overlap test holds, the emitted interaction is
classified `contradicting` with strength exactly 0.7, whatever the
relationship lists, suits and arcana of the two cards would otherwise have
produced in steps 2–5. -/
theorem calculateInteraction_contradicting_overrides (lang : Language) (dc1 dc2 : DrawnCard)
    (hrev : dc1.reversed ≠ dc2.reversed)
    (hsim : haveSimilarEnergy dc1.card dc2.card = true) :
    (calculateInteraction lang dc1 dc2).relationshipType = RelationshipType.contradicting ∧
    (calculateInteraction lang dc1 dc2).strength = 7/10 := by
  have hc : dc1.reversed ≠ dc2.reversed ∧ haveSimilarEnergy dc1.card dc2.card = true :=
    ⟨hrev, hsim⟩
  constructor <;> simp [calculateInteraction, contradictStep, hc, q07_eq]

/-- Witness for C1 at a pair that also triggers every earlier rule:
`cardA` lists `cardB` as supporting, both share the cups suit, both are major
arcana, and still the interaction comes out contradicting at 0.7. -/
theorem calculateInteraction_contradicting_overrides_witness :
    isInRelationshipList dcB.card dcA.card.relationships.supporting_cards = true ∧
    dcA.card.suit = dcB.card.suit ∧ dcA.card.suit ≠ none ∧
    dcA.card.arcana = Arcana.major ∧ dcB.card.arcana = Arcana.major ∧
    dcA.reversed ≠ dcB.reversed ∧
    (calculateInteraction .en dcA dcB).relationshipType = RelationshipType.contradicting ∧
    (calculateInteraction .en dcA dcB).strength = 7/10 :=
  ⟨by decide, by decide, by decide, by decide, by decide, by decide,
   (calculateInteraction_contradicting_overrides .en dcA dcB (by decide) (by decide)).1,
   (calculateInteraction_contradicting_overrides .en dcA dcB (by decide) (by decide)).2⟩

/-! ### C2 -/

/-- Counterexample to C2: `cardQ` (Beta) is in `cardP`'s (Alpha's)
challenging-list while `cardP` is in `cardQ`'s supporting-list, yet the
interaction is classified `challenging`, not `supporting` — the source checks
`B ∈ A.challenging` before `A ∈ B.supporting`. -/
theorem relationshipOrder_counterexample :
    isInRelationshipList dcQ.card dcP.card.relationships.challenging_cards = true ∧
    isInRelationshipList dcP.card dcQ.card.relationships.supporting_cards = true ∧
    (calculateInteraction .en dcP dcQ).relationshipType = RelationshipType.challenging ∧
    (calculateInteraction .en dcP dcQ).relationshipType ≠ RelationshipType.supporting := by
  refine ⟨by decide, by decide, by decide, by decide⟩

/-- C2 as amended: the relationship-list checks run in the directional order
B-in-A's-supporting, B-in-A's-challenging, A-in-B's-supporting,
A-in-B's-challenging, first match winning. Hence a pair with B in A's
challenging-list (and B not in A's supporting-list) is classified
`challenging` at 0.9 — regardless of whether A appears in B's
supporting-list — as long as the contradicting override does not fire. -/
theorem calculateInteraction_directional_order (lang : Language) (dc1 dc2 : DrawnCard)
    (hs : isInRelationshipList dc2.card dc1.card.relationships.supporting_cards = false)
    (hc : isInRelationshipList dc2.card dc1.card.relationships.challenging_cards = true)
    (hno : ¬(dc1.reversed ≠ dc2.reversed ∧ haveSimilarEnergy dc1.card dc2.card = true)) :
    (calculateInteraction lang dc1 dc2).relationshipType = RelationshipType.challenging ∧
    (calculateInteraction lang dc1 dc2).strength = 9/10 := by
  have h1 : relationshipStep dc1.card dc2.card = (RelationshipType.challenging, q09) := by
    simp [relationshipStep, hs, hc]
  have h2 : suitStep dc1.card dc2.card (RelationshipType.challenging, q09)
      = (RelationshipType.challenging, q09) := by
    unfold suitStep
    split
    · simp [max_q09_q05]
    · rfl
  have h3 : majorStep dc1.card dc2.card (RelationshipType.challenging, q09)
      = (RelationshipType.challenging, q09) := by
    unfold majorStep
    split
    · simp [max_q09_q06]
    · rfl
  have h4 : contradictStep dc1 dc2 (RelationshipType.challenging, q09)
      = (RelationshipType.challenging, q09) := by
    unfold contradictStep
    rw [if_neg hno]
  refine ⟨?_, ?_⟩ <;> simp only [calculateInteraction] <;> rw [h1, h2, h3, h4] <;>
    simp [q09_eq]

/-- Witness for C2's amended theorem at the counterexample pair: A in B's
supporting-list does not rescue the pair from `challenging`. -/
theorem calculateInteraction_directional_order_witness :
    isInRelationshipList dcP.card dcQ.card.relationships.supporting_cards = true ∧
    (calculateInteraction .en dcP dcQ).relationshipType = RelationshipType.challenging ∧
    (calculateInteraction .en dcP dcQ).strength = 9/10 :=
  ⟨by decide,
   (calculateInteraction_directional_order .en dcP dcQ (by decide) (by decide) (by decide)).1,
   (calculateInteraction_directional_order .en dcP dcQ (by decide) (by decide) (by decide)).2⟩

/-! ### C3 -/

/-- C3: the interaction list is exactly (up to the descending sort) the
pairwise interactions of strength above 0.3 — pairs at or below the threshold
are absent — and the returned list is sorted in non-increasing strength
order. -/
theorem analyzeInteractions_threshold_sorted (lang : Language) (cards : List DrawnCard) :
    (analyzeInteractions lang cards).Perm
      (((pairsOf cards).map fun p => calculateInteraction lang p.1 p.2).filter
        fun i => decide ((3/10 : ℚ) < i.strength)) ∧
    List.Sorted (fun a b : CardInteraction => b.strength ≤ a.strength)
      (analyzeInteractions lang cards) ∧
    ∀ i ∈ analyzeInteractions lang cards, (3/10 : ℚ) < i.strength := by
  have hq : (fun i : CardInteraction => decide (q03 < i.strength))
      = fun i : CardInteraction => decide ((3/10 : ℚ) < i.strength) := by
    funext i; rw [q03_eq]
  refine ⟨?_, ?_, ?_⟩
  · unfold analyzeInteractions
    rw [hq]
    exact List.perm_insertionSort _ _
  · exact List.sorted_insertionSort strengthGe _
  · intro i hi
    unfold analyzeInteractions at hi
    have hmem := (List.perm_insertionSort strengthGe _).mem_iff.mp hi
    have := (List.mem_filter.mp hmem).2
    rw [← q03_eq]
    exact of_decide_eq_true this

/-- Witness for C3's threshold clause at a concrete member of a concrete
reading's interaction list. -/
theorem analyzeInteractions_threshold_sorted_witness :
    iXY ∈ analyzeInteractions .en xyzCards ∧ (3/10 : ℚ) < iXY.strength :=
  ⟨by decide, (analyzeInteractions_threshold_sorted .en xyzCards).2.2 iXY (by decide)⟩

/-! ### C4 -/

/-- Counterexample to C4: `cardK1` repeats the keyword `love`, `cardK2` has it
once. The cards share only one distinct word, yet the source's overlap test
holds, because the source counts `cardK1`'s tokens with multiplicity. -/
theorem keywordOverlap_counterexample :
    specDistinctOverlap cardK1 cardK2 = false ∧
    haveSimilarEnergy cardK1 cardK2 = true := by
  refine ⟨by decide, by decide⟩

/-- C4 as amended: the overlap test holds exactly when at least 2 tokens of
card A's keyword token list — counted with multiplicity — occur among card
B's tokens; an overlap of ≥2 distinct shared words is sufficient but not
necessary. -/
theorem haveSimilarEnergy_token_count (c1 c2 : TarotCard) :
    (haveSimilarEnergy c1 c2 = true ↔
      2 ≤ ((keywordTokens c1).filter fun w => (keywordTokens c2).contains w).length) ∧
    (specDistinctOverlap c1 c2 = true → haveSimilarEnergy c1 c2 = true) := by
  constructor
  · simp [haveSimilarEnergy]
  · intro h
    have h' : 2 ≤ ((keywordTokens c1).dedup.filter
        fun w => (keywordTokens c2).contains w).length :=
      of_decide_eq_true h
    have hsub : ((keywordTokens c1).dedup.filter fun w => (keywordTokens c2).contains w).length
        ≤ ((keywordTokens c1).filter fun w => (keywordTokens c2).contains w).length :=
      ((keywordTokens c1).dedup_sublist.filter _).length_le
    unfold haveSimilarEnergy
    exact decide_eq_true (le_trans h' hsub)

/-- Witness for C4's amended theorem: two genuinely distinct shared words do
trigger the overlap test. -/
theorem haveSimilarEnergy_token_count_witness :
    specDistinctOverlap cardA cardB = true ∧ haveSimilarEnergy cardA cardB = true :=
  ⟨by decide, (haveSimilarEnergy_token_count cardA cardB).2 (by decide)⟩

/-! ### C5 -/

/-- C5: the overall-energy classification is exactly the spec's
order-of-evaluation on the two keyword scores (positive, then negative, then
mixed, then the neutral fallthrough), and in particular scores 3 / 2 classify
as mixed. -/
theorem calculateOverallEnergy_eq_spec (cards : List DrawnCard) :
    calculateOverallEnergy cards
      = specClassifyEnergy (positiveScore cards) (negativeScore cards) ∧
    specClassifyEnergy 3 2 = OverallEnergy.mixed := by
  have hgt : ∀ p n : Nat, ((p : ℚ) > (n : ℚ) * (3/2)) ↔ 3 * n < 2 * p := by
    intro p n
    constructor
    · intro h
      have h' : (3 * n : ℚ) < 2 * p := by push_cast; linarith
      exact_mod_cast h'
    · intro h
      have h' : (3 * n : ℚ) < 2 * p := by exact_mod_cast h
      have : ((n : ℚ)) * (3/2) < p := by linarith
      exact this
  have habs : ∀ a : ℤ, |a| < 2 ↔ a.natAbs < 2 := by
    intro a
    rw [Int.abs_eq_natAbs]
    omega
  constructor
  · unfold calculateOverallEnergy specClassifyEnergy
    by_cases h1 : 3 * negativeScore cards < 2 * positiveScore cards
    · rw [if_pos h1, if_pos ((hgt _ _).mpr h1)]
    · rw [if_neg h1, if_neg (fun hh => h1 ((hgt _ _).mp hh))]
      by_cases h2 : 3 * positiveScore cards < 2 * negativeScore cards
      · rw [if_pos h2, if_pos ((hgt _ _).mpr h2)]
      · rw [if_neg h2, if_neg (fun hh => h2 ((hgt _ _).mp hh))]
        by_cases h3 : ((positiveScore cards : ℤ) - (negativeScore cards : ℤ)).natAbs < 2
        · rw [if_pos h3, if_pos ((habs _).mpr h3)]
        · rw [if_neg h3, if_neg (fun hh => h3 ((habs _).mp hh))]
  · unfold specClassifyEnergy
    norm_num

/-! ### C6 -/

theorem bumpSuit_ne_nil (acc : List (Suit × Nat)) (s : Suit) : bumpSuit acc s ≠ [] := by
  cases acc with
  | nil => simp [bumpSuit]
  | cons e rest =>
    obtain ⟨t, n⟩ := e
    unfold bumpSuit
    split <;> simp

theorem foldl_bumpSuit_ne_nil (l : List Suit) (acc : List (Suit × Nat)) (h : acc ≠ []) :
    l.foldl bumpSuit acc ≠ [] := by
  induction l generalizing acc with
  | nil => exact h
  | cons s rest ih => exact ih (bumpSuit acc s) (bumpSuit_ne_nil acc s)

theorem suitCounts_eq_nil (l : List Suit) : suitCounts l = [] ↔ l = [] := by
  cases l with
  | nil => simp [suitCounts]
  | cons s rest =>
    constructor
    · intro h
      exact absurd h
        (foldl_bumpSuit_ne_nil rest (bumpSuit [] s) (bumpSuit_ne_nil [] s))
    · intro h
      exact absurd h (by simp)

/-- The dominant suit is undefined exactly when no drawn card has a suit. -/
theorem dominantSuit_eq_none (cards : List DrawnCard) :
    dominantSuit cards = none ↔ ∀ dc ∈ cards, dc.card.suit = none := by
  have h1 : dominantSuit cards = none
      ↔ suitCounts (cards.filterMap fun dc => dc.card.suit) = [] := by
    unfold dominantSuit
    cases h : suitCounts (cards.filterMap fun dc => dc.card.suit) with
    | nil => simp [h]
    | cons e es => simp [h]
  rw [h1, suitCounts_eq_nil, List.filterMap_eq_nil_iff]

/-- C6: for a non-empty reading, a major-arcana share of at least 60% forces
the major-heavy primary theme regardless of any dominant suit; below that the
primary theme is the dominant suit's text, or the balanced-reading fallback
exactly when no drawn card has a suit. The first conjunct identifies the
source's integer comparison with the 60% condition. -/
theorem primaryTheme_spec (lang : Language) (cards : List DrawnCard) (hne : cards ≠ []) :
    ((6/10 : ℚ) * (cards.length : ℚ) ≤ (majorArcanaCount cards : ℚ)
        ↔ 3 * cards.length ≤ 5 * majorArcanaCount cards) ∧
    (3 * cards.length ≤ 5 * majorArcanaCount cards →
      (analyzeTheme lang cards).primaryTheme = (themeTemplates lang).majorHeavy) ∧
    (¬ 3 * cards.length ≤ 5 * majorArcanaCount cards →
      (∀ s, dominantSuit cards = some s →
        (analyzeTheme lang cards).primaryTheme = suitTemplate (themeTemplates lang) s) ∧
      (dominantSuit cards = none →
        (analyzeTheme lang cards).primaryTheme = balancedText lang)) ∧
    (dominantSuit cards = none ↔ ∀ dc ∈ cards, dc.card.suit = none) := by
  refine ⟨?_, ?_, ?_, dominantSuit_eq_none cards⟩
  · constructor
    · intro h
      have h' : (3 * cards.length : ℚ) ≤ 5 * majorArcanaCount cards := by
        push_cast at h ⊢
        linarith
      exact_mod_cast h'
    · intro h
      have h' : (3 * cards.length : ℚ) ≤ 5 * majorArcanaCount cards := by exact_mod_cast h
      push_cast at h' ⊢
      linarith
  · intro h
    simp only [analyzeTheme, determinePrimaryTheme]
    rw [if_pos h]
  · intro h
    constructor
    · intro s hs
      simp only [analyzeTheme, determinePrimaryTheme]
      rw [if_neg h, hs]
    · intro hs
      simp only [analyzeTheme, determinePrimaryTheme]
      rw [if_neg h, hs]

/-- Witness for C6: a 5-card reading with 3 major arcana (60%) and a clear
cups majority among the minors still takes the major-heavy theme. -/
theorem primaryTheme_spec_witness :
    fiveCards ≠ [] ∧
    dominantSuit fiveCards = some Suit.cups ∧
    (analyzeTheme .en fiveCards).primaryTheme = (themeTemplates .en).majorHeavy :=
  ⟨by decide, by decide,
   (primaryTheme_spec .en fiveCards (by decide)).2.1 (by decide)⟩

/-! ### C7 -/

/-- The code's position-membership test, phrased as the existence of an
outcome-named position with the drawn card's position number. -/
theorem outcome_contains_iff (spread : TarotSpread) (dc : DrawnCard) :
    ((spread.positions.filter fun p => isOutcomeName p.name).map fun p => p.position).contains
        dc.position
      = decide (∃ p ∈ spread.positions, isOutcomeName p.name = true ∧
          p.position = dc.position) := by
  apply Bool.eq_iff_iff.mpr
  simp only [List.elem_iff, List.mem_map, List.mem_filter, decide_eq_true_eq]
  constructor
  · rintro ⟨p, ⟨hp, hf⟩, hx⟩
    exact ⟨p, hp, hf, hx⟩
  · rintro ⟨p, hp, hf, hx⟩
    exact ⟨p, ⟨hp, hf⟩, hx⟩

/-- C7: for a non-empty reading whose outcome-named spread positions are all
occupied, the outcome influencers are exactly the drawn cards sitting on an
outcome-named position ("future"/"outcome"/"result", case-insensitively);
when no position name matches, exactly the last-drawn card; and the result is
never empty. -/
theorem outcomeInfluencers_spec (cards : List DrawnCard) (spread : TarotSpread)
    (hne : cards ≠ []) :
    ((∀ p ∈ spread.positions, isOutcomeName p.name = true →
        ∃ dc ∈ cards, dc.position = p.position) →
      (∃ p ∈ spread.positions, isOutcomeName p.name = true) →
      identifyOutcomeInfluencers cards spread =
        cards.filter fun dc => decide (∃ p ∈ spread.positions,
          isOutcomeName p.name = true ∧ p.position = dc.position)) ∧
    ((∀ p ∈ spread.positions, isOutcomeName p.name = false) →
      identifyOutcomeInfluencers cards spread = [cards.getLast hne]) ∧
    identifyOutcomeInfluencers cards spread ≠ [] := by
  have hfe : (cards.filter fun dc =>
      ((spread.positions.filter fun p => isOutcomeName p.name).map fun p => p.position).contains
        dc.position)
      = cards.filter fun dc => decide (∃ p ∈ spread.positions,
          isOutcomeName p.name = true ∧ p.position = dc.position) :=
    List.filter_congr fun dc _ => outcome_contains_iff spread dc
  refine ⟨?_, ?_, ?_⟩
  · intro hocc
    rintro ⟨p, hp, hout⟩
    obtain ⟨dc0, hdc0mem, hdc0pos⟩ := hocc p hp hout
    have hdc0 : dc0 ∈ cards.filter fun dc => decide (∃ p ∈ spread.positions,
        isOutcomeName p.name = true ∧ p.position = dc.position) := by
      rw [List.mem_filter]
      exact ⟨hdc0mem, decide_eq_true ⟨p, hp, hout, hdc0pos.symm⟩⟩
    have hlen : 0 < (cards.filter fun dc =>
        ((spread.positions.filter fun p => isOutcomeName p.name).map
          fun p => p.position).contains dc.position).length := by
      rw [hfe]
      exact List.length_pos_of_mem hdc0
    unfold identifyOutcomeInfluencers
    rw [if_pos hlen]
    exact hfe
  · intro hall
    have hneg : ¬ 0 < (cards.filter fun dc =>
        ((spread.positions.filter fun p => isOutcomeName p.name).map
          fun p => p.position).contains dc.position).length := by
      have hpf : spread.positions.filter (fun p => isOutcomeName p.name) = [] :=
        List.filter_eq_nil_iff.mpr fun p hp => by simp [hall p hp]
      have : (cards.filter fun dc =>
          ((spread.positions.filter fun p => isOutcomeName p.name).map
            fun p => p.position).contains dc.position) = [] :=
        List.filter_eq_nil_iff.mpr fun dc _ => by simp [hpf]
      rw [this]
      simp
    unfold identifyOutcomeInfluencers
    rw [if_neg hneg, List.getLast?_eq_getLast cards hne]
  · by_cases hpos : 0 < (cards.filter fun dc =>
        ((spread.positions.filter fun p => isOutcomeName p.name).map
          fun p => p.position).contains dc.position).length
    · unfold identifyOutcomeInfluencers
      rw [if_pos hpos]
      exact List.ne_nil_of_length_pos hpos
    · unfold identifyOutcomeInfluencers
      rw [if_neg hpos, List.getLast?_eq_getLast cards hne]
      simp

/-- Witness for C7 at a three-card reading over a spread whose third position
is named `The Outcome`: exactly the card on that position is returned, and the
result is non-empty. -/
theorem outcomeInfluencers_spec_witness :
    xyzCards ≠ [] ∧
    identifyOutcomeInfluencers xyzCards outcomeSpread =
      (xyzCards.filter fun dc => decide (∃ p ∈ outcomeSpread.positions,
        isOutcomeName p.name = true ∧ p.position = dc.position)) ∧
    identifyOutcomeInfluencers xyzCards outcomeSpread ≠ [] :=
  ⟨by decide,
   (outcomeInfluencers_spec xyzCards outcomeSpread (by decide)).1 (by decide)
     ⟨{ position := 3, name := "The Outcome", description := "" }, by decide, by decide⟩,
   (outcomeInfluencers_spec xyzCards outcomeSpread (by decide)).2.2⟩

/-! ### C8 -/

/-- Membership in the id-set folded from the interactions of a given
classification. -/
theorem mem_foldr_ids (rt : RelationshipType) (interactions : List CardInteraction) (x : Nat) :
    x ∈ interactions.foldr
        (fun i acc => if i.relationshipType = rt then i.card1.id :: i.card2.id :: acc else acc)
        []
      ↔ ∃ i ∈ interactions, i.relationshipType = rt ∧ (i.card1.id = x ∨ i.card2.id = x) := by
  induction interactions with
  | nil => simp
  | cons i is ih =>
    have hfold : (i :: is).foldr
        (fun i acc => if i.relationshipType = rt then i.card1.id :: i.card2.id :: acc else acc)
        []
        = if i.relationshipType = rt then
            i.card1.id :: i.card2.id :: is.foldr
              (fun i acc =>
                if i.relationshipType = rt then i.card1.id :: i.card2.id :: acc else acc)
              []
          else is.foldr
            (fun i acc =>
              if i.relationshipType = rt then i.card1.id :: i.card2.id :: acc else acc)
            [] := rfl
    rw [hfold]
    by_cases h : i.relationshipType = rt
    · rw [if_pos h, List.mem_cons, List.mem_cons, ih]
      constructor
      · rintro (rfl | rfl | ⟨j, hj, hjt, hjx⟩)
        · exact ⟨i, List.mem_cons_self i is, h, Or.inl rfl⟩
        · exact ⟨i, List.mem_cons_self i is, h, Or.inr rfl⟩
        · exact ⟨j, List.mem_cons_of_mem i hj, hjt, hjx⟩
      · rintro ⟨j, hj, hjt, hjx⟩
        rcases List.mem_cons.mp hj with rfl | hj'
        · rcases hjx with hx | hx
          · exact Or.inl hx.symm
          · exact Or.inr (Or.inl hx.symm)
        · exact Or.inr (Or.inr ⟨j, hj', hjt, hjx⟩)
    · rw [if_neg h, ih]
      constructor
      · rintro ⟨j, hj, hjt, hjx⟩
        exact ⟨j, List.mem_cons_of_mem i hj, hjt, hjx⟩
      · rintro ⟨j, hj, hjt, hjx⟩
        rcases List.mem_cons.mp hj with rfl | hj'
        · exact absurd hjt h
        · exact ⟨j, hj', hjt, hjx⟩

theorem mem_supportingIds (interactions : List CardInteraction) (x : Nat) :
    x ∈ supportingIds interactions ↔ ∃ i ∈ interactions,
      i.relationshipType = RelationshipType.supporting ∧
      (i.card1.id = x ∨ i.card2.id = x) :=
  mem_foldr_ids RelationshipType.supporting interactions x

theorem mem_challengingIds (interactions : List CardInteraction) (x : Nat) :
    x ∈ challengingIds interactions ↔ ∃ i ∈ interactions,
      i.relationshipType = RelationshipType.challenging ∧
      (i.card1.id = x ∨ i.card2.id = x) :=
  mem_foldr_ids RelationshipType.challenging interactions x

/-- C8: the supporting (resp. challenging) card list is the original drawn
list filtered, in draw order, to the cards whose card id is touched by some
interaction classified supporting (resp. challenging); consequently each such
card appears in at least one interaction of that classification. -/
theorem categorizeCards_spec (cards : List DrawnCard) (interactions : List CardInteraction) :
    (categorizeCards cards interactions).1 = (cards.filter fun dc =>
        decide (∃ i ∈ interactions, i.relationshipType = RelationshipType.supporting ∧
          (i.card1.id = dc.card.id ∨ i.card2.id = dc.card.id))) ∧
    (categorizeCards cards interactions).2 = (cards.filter fun dc =>
        decide (∃ i ∈ interactions, i.relationshipType = RelationshipType.challenging ∧
          (i.card1.id = dc.card.id ∨ i.card2.id = dc.card.id))) ∧
    (∀ dc ∈ (categorizeCards cards interactions).1, ∃ i ∈ interactions,
      i.relationshipType = RelationshipType.supporting ∧
      (i.card1.id = dc.card.id ∨ i.card2.id = dc.card.id)) ∧
    (∀ dc ∈ (categorizeCards cards interactions).2, ∃ i ∈ interactions,
      i.relationshipType = RelationshipType.challenging ∧
      (i.card1.id = dc.card.id ∨ i.card2.id = dc.card.id)) := by
  have hs : (categorizeCards cards interactions).1 = (cards.filter fun dc =>
      decide (∃ i ∈ interactions, i.relationshipType = RelationshipType.supporting ∧
        (i.card1.id = dc.card.id ∨ i.card2.id = dc.card.id))) := by
    apply List.filter_congr
    intro dc _
    apply Bool.eq_iff_iff.mpr
    simp only [List.elem_iff, decide_eq_true_eq]
    exact mem_supportingIds interactions dc.card.id
  have hc : (categorizeCards cards interactions).2 = (cards.filter fun dc =>
      decide (∃ i ∈ interactions, i.relationshipType = RelationshipType.challenging ∧
        (i.card1.id = dc.card.id ∨ i.card2.id = dc.card.id))) := by
    apply List.filter_congr
    intro dc _
    apply Bool.eq_iff_iff.mpr
    simp only [List.elem_iff, decide_eq_true_eq]
    exact mem_challengingIds interactions dc.card.id
  refine ⟨hs, hc, ?_, ?_⟩
  · intro dc hdc
    rw [hs] at hdc
    exact of_decide_eq_true (List.mem_filter.mp hdc).2
  · intro dc hdc
    rw [hc] at hdc
    exact of_decide_eq_true (List.mem_filter.mp hdc).2

/-- Witness for C8 at the three-card reading: the supported card `dcY` is in
the supporting list and does appear in a supporting-classified interaction. -/
theorem categorizeCards_spec_witness :
    dcY ∈ (categorizeCards xyzCards (analyzeInteractions .en xyzCards)).1 ∧
    ∃ i ∈ analyzeInteractions .en xyzCards,
      i.relationshipType = RelationshipType.supporting ∧
      (i.card1.id = dcY.card.id ∨ i.card2.id = dcY.card.id) :=
  ⟨by decide,
   (categorizeCards_spec xyzCards (analyzeInteractions .en xyzCards)).2.2.1 dcY (by decide)⟩

/-! ### C9 -/

theorem max_0_q05 : max (0 : ℚ) q05 = q05 := by decide

theorem max_0_q06 : max (0 : ℚ) q06 = q06 := by decide

theorem max_q05_q06 : max q05 q06 = q06 := by decide

theorem relationshipStep_cases (c1 c2 : TarotCard) :
    relationshipStep c1 c2 = (RelationshipType.supporting, q09) ∨
    relationshipStep c1 c2 = (RelationshipType.challenging, q09) ∨
    relationshipStep c1 c2 = (RelationshipType.neutral, 0) := by
  unfold relationshipStep
  split
  · exact Or.inl rfl
  split
  · exact Or.inr (Or.inl rfl)
  split
  · exact Or.inl rfl
  split
  · exact Or.inr (Or.inl rfl)
  · exact Or.inr (Or.inr rfl)

theorem suitStep_cases (c1 c2 : TarotCard) (rs : RelationshipType × ℚ) :
    suitStep c1 c2 rs = rs ∨
    suitStep c1 c2 rs
      = ((if rs.1 = RelationshipType.neutral then RelationshipType.complementary else rs.1),
         max rs.2 q05) := by
  unfold suitStep
  split
  · exact Or.inr rfl
  · exact Or.inl rfl

theorem majorStep_cases (c1 c2 : TarotCard) (rs : RelationshipType × ℚ) :
    majorStep c1 c2 rs = rs ∨
    (majorStep c1 c2 rs = (rs.1, max rs.2 q06) ∧
     c1.arcana = Arcana.major ∧ c2.arcana = Arcana.major) := by
  unfold majorStep
  split
  · next h => exact Or.inr ⟨rfl, h.1, h.2⟩
  · exact Or.inl rfl

theorem contradictStep_cases (dc1 dc2 : DrawnCard) (rs : RelationshipType × ℚ) :
    contradictStep dc1 dc2 rs = (RelationshipType.contradicting, q07) ∨
    contradictStep dc1 dc2 rs = rs := by
  unfold contradictStep
  split
  · exact Or.inl rfl
  · exact Or.inr rfl

/-- Exhaustive strength/classification analysis of one pairwise interaction. -/
theorem interaction_strength_cases (lang : Language) (dc1 dc2 : DrawnCard) :
    ((calculateInteraction lang dc1 dc2).relationshipType = RelationshipType.supporting ∨
     (calculateInteraction lang dc1 dc2).relationshipType = RelationshipType.challenging →
      (calculateInteraction lang dc1 dc2).strength = q09) ∧
    ((calculateInteraction lang dc1 dc2).relationshipType = RelationshipType.contradicting →
      (calculateInteraction lang dc1 dc2).strength = q07) ∧
    ((calculateInteraction lang dc1 dc2).relationshipType = RelationshipType.neutral →
      (calculateInteraction lang dc1 dc2).strength = 0 ∨
      ((calculateInteraction lang dc1 dc2).strength = q06 ∧
       dc1.card.arcana = Arcana.major ∧ dc2.card.arcana = Arcana.major)) ∧
    ((calculateInteraction lang dc1 dc2).relationshipType = RelationshipType.complementary →
      (calculateInteraction lang dc1 dc2).strength = q05 ∨
      (calculateInteraction lang dc1 dc2).strength = q06) := by
  have ht : (calculateInteraction lang dc1 dc2).relationshipType
      = (contradictStep dc1 dc2 (majorStep dc1.card dc2.card
          (suitStep dc1.card dc2.card (relationshipStep dc1.card dc2.card)))).1 := rfl
  have hstr : (calculateInteraction lang dc1 dc2).strength
      = (contradictStep dc1 dc2 (majorStep dc1.card dc2.card
          (suitStep dc1.card dc2.card (relationshipStep dc1.card dc2.card)))).2 := rfl
  rw [ht, hstr]
  obtain h4 | h4 := contradictStep_cases dc1 dc2
      (majorStep dc1.card dc2.card (suitStep dc1.card dc2.card
        (relationshipStep dc1.card dc2.card)))
  · rw [h4]
    simp
  · rw [h4]
    obtain h3 | ⟨h3, hm1, hm2⟩ := majorStep_cases dc1.card dc2.card
        (suitStep dc1.card dc2.card (relationshipStep dc1.card dc2.card)) <;>
      rw [h3] <;>
      obtain h2 | h2 := suitStep_cases dc1.card dc2.card
          (relationshipStep dc1.card dc2.card) <;>
        rw [h2] <;>
        obtain h1 | h1 | h1 := relationshipStep_cases dc1.card dc2.card <;>
          rw [h1] <;>
          simp_all [max_0_q05, max_0_q06, max_q05_q06, max_q09_q05, max_q09_q06]

/-- C9: every interaction the scorer returns has a strength pinned by its
final classification — 0.9 for supporting/challenging, 0.7 for contradicting,
0.6 for neutral (then necessarily two major arcana), and 0.5 or 0.6 for
complementary. -/
theorem analyzeInteractions_strength_values (lang : Language) (cards : List DrawnCard)
    (i : CardInteraction) (hi : i ∈ analyzeInteractions lang cards) :
    (i.relationshipType = RelationshipType.supporting ∨
     i.relationshipType = RelationshipType.challenging → i.strength = 9/10) ∧
    (i.relationshipType = RelationshipType.contradicting → i.strength = 7/10) ∧
    (i.relationshipType = RelationshipType.neutral →
      i.strength = 3/5 ∧ i.card1.arcana = Arcana.major ∧ i.card2.arcana = Arcana.major) ∧
    (i.relationshipType = RelationshipType.complementary →
      i.strength = 1/2 ∨ i.strength = 3/5) := by
  unfold analyzeInteractions at hi
  have hf := (List.perm_insertionSort strengthGe _).mem_iff.mp hi
  obtain ⟨hmap, hstr⟩ := List.mem_filter.mp hf
  obtain ⟨p, hp, rfl⟩ := List.mem_map.mp hmap
  have hthr : q03 < (calculateInteraction lang p.1 p.2).strength := of_decide_eq_true hstr
  obtain ⟨hA, hB, hC, hD⟩ := interaction_strength_cases lang p.1 p.2
  refine ⟨?_, ?_, ?_, ?_⟩
  · intro h
    exact (hA h).trans q09_eq
  · intro h
    exact (hB h).trans q07_eq
  · intro h
    rcases hC h with h0 | ⟨h6, hm1, hm2⟩
    · rw [h0] at hthr
      exact absurd hthr (by decide)
    · exact ⟨h6.trans q06_eq, hm1, hm2⟩
  · intro h
    rcases hD h with h5 | h6
    · exact Or.inl (h5.trans q05_eq)
    · exact Or.inr (h6.trans q06_eq)

/-- Witness for C9: the supporting interaction of the three-card reading is in
the output and carries strength 0.9. -/
theorem analyzeInteractions_strength_values_witness :
    iXY ∈ analyzeInteractions .en xyzCards ∧ iXY.strength = 9/10 :=
  ⟨by decide,
   (analyzeInteractions_strength_values .en xyzCards iXY (by decide)).1 (Or.inl (by decide))⟩

/-! ### C10 -/

/-- C10: the supporting and challenging card lists are not disjoint — in the
three-card reading where `cardX` supports `cardY` and challenges `cardZ`, the
drawn card `dcX` is in both `supportingCards` and `challengingCards` of the
full analysis. -/
theorem supportingChallenging_overlap :
    dcX ∈ (analyze .en xyzCards outcomeSpread "").supportingCards ∧
    dcX ∈ (analyze .en xyzCards outcomeSpread "").challengingCards := by
  refine ⟨by decide, by decide⟩
